import Mathlib

/-! Open MCT: the clock-offset composable and the mct-include directive.

Shallow embedding of

* `src/plugins/timeConductor/useClockOffsets.js` (the composable `useClockOffsets`),
  together with the parts of its environment it drives: the `clockOffsetsChanged`
  listener lists of the Time Contexts, the reference cell `timeContext`, and the
  watcher that `watch(timeContext, cb, { immediate: true })` installs;
* `platform/representation/test/MCTIncludeSpec.js` (the helper `fireWatch` and the
  fixture `testTemplates`), with the directive under test modelled from the
  specification, since `platform/representation/src/MCTInclude.js` is not part of
  the sources at hand.
-/

namespace OpenMCT

/-! ## The environment of `useClockOffsets` -/

/-- Identity of a Time Context object. Two Time Contexts are the same object exactly
when their identities are equal. -/
abbrev TimeContext := Nat

/-- What `useClockOffsets` reads from Time Context objects without owning it.
`V` is the type of offsets values and event payloads; the composable never looks
inside one. -/
structure TimeAPI (V : Type) where
  /-- Result of `ctx.getClockOffsets()`. -/
  getClockOffsets : TimeContext → V
  /-- Own property `value` of the Time Context object `ctx`: `none` when the object has
  no such property (`ctx.value` is `undefined`), else the emitter it refers to. The
  Time Context interface (`on`, `off`, `getClockOffsets`) has no `value` member. -/
  value : TimeContext → Option TimeContext

/-- A time API whose Time Context objects carry no `value` property. -/
def TimeAPI.plain {V : Type} (getClockOffsets : TimeContext → V) : TimeAPI V :=
  { getClockOffsets := getClockOffsets, value := fun _ => none }

/-- Mutable state touched by one call of `useClockOffsets`. -/
structure Bridge (V : Type) where
  /-- Content of the reference cell: `timeContext.value`. -/
  timeContext : TimeContext
  /-- Content of the returned cell: `offsets.value`. -/
  offsets : V
  /-- Whether `stopObservingClockOffsets` (line 41) has been assigned. The only closure
  ever assigned to it is `() => timeContext.value.off(clockOffsetsChanged,
  updateClockOffsets)` of lines 60-61, which captures the cell and not its content. -/
  stopObservingClockOffsets : Bool
  /-- For each Time Context, how many entries of its `clockOffsetsChanged` listener list
  are this call's `updateClockOffsets`. -/
  listeners : TimeContext → Nat
  /-- The value the watcher saw last (`undefined` before its first run). -/
  watched : Option TimeContext
  /-- Whether the watcher still runs (the owning component is not unmounted). -/
  active : Bool

variable {V : Type}

/-- Modelled from the spec: `on(eventName, handler)` of the Time Context event interface
(the Time Context class is absent from the sources), here the call
`ctx.on(clockOffsetsChanged, updateClockOffsets)`: one more entry in the listener list
of `ctx`. -/
def Bridge.on (ctx : TimeContext) (s : Bridge V) : Bridge V :=
  { s with listeners := fun c => if c = ctx then s.listeners c + 1 else s.listeners c }

/-- Modelled from the spec: `off(eventName, handler)` of the Time Context event interface
(the Time Context class is absent from the sources), here the call
`ctx.off(clockOffsetsChanged, updateClockOffsets)`: the handler leaves the listener list
of `ctx`, every entry of it, as the event emitter that Time Contexts extend does;
unsubscribing an already-unsubscribed listener, or no listener at all, does not fail. -/
def Bridge.off (ctx : TimeContext) (s : Bridge V) : Bridge V :=
  { s with listeners := fun c => if c = ctx then 0 else s.listeners c }

/-! ## `useClockOffsets.js` -/

/-- Lines 64-66: `function updateClockOffsets(_offsets) { offsets.value = _offsets; }`. -/
def updateClockOffsets (_offsets : V) (s : Bridge V) : Bridge V :=
  { s with offsets := _offsets }

/-- Body of the closure of lines 60-61:
`timeContext.value.off(clockOffsetsChanged, updateClockOffsets)`, the cell being read
when the closure runs. -/
def stopObservingClockOffsets (s : Bridge V) : Bridge V :=
  s.off s.timeContext

/-- Lines 58-62: `observeClockOffsets`. -/
def observeClockOffsets (s : Bridge V) : Bridge V :=
  { s.on s.timeContext with stopObservingClockOffsets := true }

/-- Lines 51-54, the watch callback `(newContext, oldContext) => ...`. A watcher on a
reference cell passes the cell's new and previous content; `oldContext` is `none`
(`undefined`) on the immediate first run. Line 52 is
`oldContext?.value?.off(clockOffsetsChanged, updateClockOffsets)`. -/
def watchCallback (api : TimeAPI V) (_newContext : TimeContext)
    (oldContext : Option TimeContext) (s : Bridge V) : Bridge V :=
  let s1 :=
    match oldContext with
    | none => s
    | some old =>
      match api.value old with
      | none => s
      | some target => s.off target
  observeClockOffsets s1

/-- Line 47, the hook `() => stopObservingClockOffsets?.()`. -/
def onBeforeUnmountHook (s : Bridge V) : Bridge V :=
  if s.stopObservingClockOffsets then stopObservingClockOffsets s else s

/-- What a property of the returned object refers to. -/
inductive Member
  | offsetsRef
  | observeClockOffsetsFn
deriving DecidableEq, Repr

/-- Lines 35-38, the `@returns` of the docstring: the property names it declares. -/
def declaredReturns : List String := ["observeClockOffsets", "offsets"]

/-- Lines 40-71: `useClockOffsets(openmct, objectPath)`, with `ctx0` the content of the
cell that `useTimeContext(openmct, objectPath)` hands back. Gives the state after the
call and the returned object `{ offsets }` as its list of properties. -/
def useClockOffsets (api : TimeAPI V) (ctx0 : TimeContext) :
    Bridge V × List (String × Member) :=
  -- line 41, line 43, line 45
  let s0 : Bridge V :=
    { timeContext := ctx0
      offsets := api.getClockOffsets ctx0
      stopObservingClockOffsets := false
      listeners := fun _ => 0
      watched := none
      active := true }
  -- lines 49-56: `immediate: true` runs the callback once during the call
  let s1 := { watchCallback api s0.timeContext s0.watched s0 with
              watched := some s0.timeContext }
  -- lines 68-70
  (s1, [("offsets", Member.offsetsRef)])

/-- State right after `useClockOffsets` returns. -/
def setup (api : TimeAPI V) (ctx0 : TimeContext) : Bridge V :=
  (useClockOffsets api ctx0).1

/-! ## Events that reach the composable -/

/-- The cell is assigned: `timeContext.value = ctx` (done by its owner, `useTimeContext`). -/
def setTimeContext (ctx : TimeContext) (s : Bridge V) : Bridge V :=
  { s with timeContext := ctx }

/-- The scheduler runs the watcher: when it is still active and the cell holds another
object than the one it saw last, the callback runs with (current content, last seen). -/
def flushWatch (api : TimeAPI V) (s : Bridge V) : Bridge V :=
  if s.active = true ∧ s.watched ≠ some s.timeContext then
    { watchCallback api s.timeContext s.watched s with watched := some s.timeContext }
  else s

/-- Modelled from the spec: a Time Context emits the named change event when offsets
change (the Time Context class is absent from the sources), here
`ctx.emit(clockOffsetsChanged, payload)`: every entry of the listener list of `ctx` is
called with the payload. -/
def emitClockOffsetsChanged (ctx : TimeContext) (payload : V) (s : Bridge V) : Bridge V :=
  (updateClockOffsets payload)^[s.listeners ctx] s

/-- The owning component unmounts: the `onBeforeUnmount` hook runs, then the watcher
stops. -/
def unmount (s : Bridge V) : Bridge V :=
  { onBeforeUnmountHook s with active := false }

/-- One thing that can happen to a bridge after setup. -/
inductive Event (V : Type)
  | setTimeContext (ctx : TimeContext)
  | flushWatch
  | clockOffsetsChanged (ctx : TimeContext) (payload : V)
  | unmount

/-- Effect of one event. -/
def step (api : TimeAPI V) (s : Bridge V) : Event V → Bridge V
  | .setTimeContext ctx => setTimeContext ctx s
  | .flushWatch => flushWatch api s
  | .clockOffsetsChanged ctx payload => emitClockOffsetsChanged ctx payload s
  | .unmount => unmount s

/-- Effect of a sequence of events, first to last. -/
def run (api : TimeAPI V) (s : Bridge V) (events : List (Event V)) : Bridge V :=
  events.foldl (step api) s

/-- A change of the reference cell to `ctx` followed by its watch callback. -/
def changeTimeContext (api : TimeAPI V) (ctx : TimeContext) (s : Bridge V) : Bridge V :=
  flushWatch api (setTimeContext ctx s)

/-! ## The mct-include directive (`platform/representation`) -/

/-- Bundle part of a template descriptor. -/
structure Bundle where
  path : String
  resources : String
deriving DecidableEq, Repr

/-- Template descriptor, as in `testTemplates` (test lines 49-60). -/
structure TemplateDescriptor where
  key : String
  bundle : Bundle
  templateUrl : String
deriving DecidableEq, Repr

/-- Test lines 49-60: the fixture `testTemplates`. -/
def testTemplates : List TemplateDescriptor :=
  [ { key := "abc", bundle := { path := "a", resources := "b" },
      templateUrl := "c/template.html" },
    { key := "xyz", bundle := { path := "x", resources := "y" },
      templateUrl := "z/template.html" } ]

/-- A call received by one of the collaborators of the directive (the spies of the
test). Scopes, elements and callbacks are named by their identity. -/
inductive Call
  /-- The call `templateLinker.link(scope, element)`. -/
  | templateLinkerLink (scope element : Nat)
  /-- The call `scope.$watch(expr, callback)`. -/
  | scopeWatch (scope : Nat) (expr : String)
  /-- The callback `callback` called with `url`. -/
  | changeTemplate (callback : Nat) (url : String)
deriving DecidableEq, Repr

/-- A `changeTemplate` callback handed back by the linking function: its identity and,
for each url, the exception it throws there, if any. -/
structure ChangeTemplate where
  id : Nat
  raises : String → Option String

/-- The injected linking function `link(scope, element)`: it hands back a
`changeTemplate` callback or throws. -/
abbrev TemplateLinker := Nat → Nat → Except String ChangeTemplate

/-- What running a piece of the directive did: the calls made, in order, and the
exception that escaped, if any. -/
structure Outcome where
  calls : List Call
  raised : Option String
deriving DecidableEq, Repr

/-- Modelled from the spec: the Resolved Template URL of `MCTInclude.js` (absent from
the sources), `bundle.path + "/" + bundle.resources + "/" + templateUrl`. -/
def resolvedTemplateUrl (d : TemplateDescriptor) : String :=
  d.bundle.path ++ "/" ++ d.bundle.resources ++ "/" ++ d.templateUrl

/-- Modelled from the spec: the callback that `MCTInclude.js` (absent from the sources)
registers on the scope's `key`. On a change of `key` to `v` it looks up the descriptor
whose `key === v`; if found it computes the Resolved Template URL and calls
`changeTemplate(url)`; if no descriptor matches, no action. -/
def keyWatch (templates : List TemplateDescriptor) (changeTemplate : ChangeTemplate)
    (v : String) : Outcome :=
  match templates.find? (fun d => d.key == v) with
  | some d =>
    { calls := [Call.changeTemplate changeTemplate.id (resolvedTemplateUrl d)]
      raised := changeTemplate.raises (resolvedTemplateUrl d) }
  | none => { calls := [], raised := none }

/-- The directive after `link`: the calls it made, the exception that escaped, and the
recorded arguments of `scope.$watch` (`mockScope.$watch.calls` in the test). -/
structure Attached where
  calls : List Call
  raised : Option String
  watches : List (String × (String → Outcome))

/-- Modelled from the spec: the restriction marker of `MCTInclude.js` (absent from the
sources), element-level usage whatever the constructor arguments (test line 71). -/
def MCTInclude.restrict (_templates : List TemplateDescriptor) (_linker : TemplateLinker) :
    String :=
  "E"

/-- Modelled from the spec: `link(scope, element, attrs)` of `MCTInclude.js` (absent from
the sources). It invokes the linking function once with `(scope, element)`, capturing
the returned `changeTemplate` callback, then registers a watch on the scope's `key`
property. An exception of the linking function propagates unmodified. -/
def MCTInclude.link (templates : List TemplateDescriptor) (linker : TemplateLinker)
    (scope element _attrs : Nat) : Attached :=
  match linker scope element with
  | .error e =>
    { calls := [Call.templateLinkerLink scope element], raised := some e, watches := [] }
  | .ok changeTemplate =>
    { calls := [Call.templateLinkerLink scope element, Call.scopeWatch scope "key"]
      raised := none
      watches := [("key", keyWatch templates changeTemplate)] }

/-- Test lines 40-46: `fireWatch(expr, value)`. Every recorded `$watch` call whose first
argument is `expr` has its callback called with `value`, in order; an exception ends the
loop. -/
def fireWatch (watches : List (String × (String → Outcome))) (expr value : String) :
    Outcome :=
  match watches with
  | [] => { calls := [], raised := none }
  | (e, callback) :: rest =>
    if e = expr then
      let first := callback value
      match first.raised with
      | some err => { calls := first.calls, raised := some err }
      | none =>
        let others := fireWatch rest expr value
        { calls := first.calls ++ others.calls, raised := others.raised }
    else fireWatch rest expr value

/-- Test lines 61-67: the mocks of `beforeEach`. The linker hands back the spy
`mockChangeTemplate` (callback 0), which never throws. -/
def mockLinker : TemplateLinker :=
  fun _ _ => .ok { id := 0, raises := fun _ => none }

/-- Whether a call is one of the linking function. -/
def Call.isTemplateLinkerLink : Call → Bool
  | .templateLinkerLink _ _ => true
  | _ => false

/-! ## Lemmas on the event emitter and the bridge -/

section Lemmas

variable {V : Type}

theorem iterate_updateClockOffsets (p : V) (n : Nat) (s : Bridge V) :
    (updateClockOffsets p)^[n] s = if n = 0 then s else updateClockOffsets p s := by
  induction n with
  | zero => simp
  | succ n ih =>
    rw [Function.iterate_succ_apply', ih]
    split <;> simp [updateClockOffsets]

theorem emit_of_no_listener (ctx : TimeContext) (p : V) (s : Bridge V)
    (h : s.listeners ctx = 0) : emitClockOffsetsChanged ctx p s = s := by
  simp [emitClockOffsetsChanged, h]

theorem emit_of_listener (ctx : TimeContext) (p : V) (s : Bridge V)
    (h : 0 < s.listeners ctx) :
    emitClockOffsetsChanged ctx p s = updateClockOffsets p s := by
  have h0 : s.listeners ctx ≠ 0 := Nat.pos_iff_ne_zero.mp h
  simp [emitClockOffsetsChanged, iterate_updateClockOffsets, h0]

theorem emit_stop (ctx : TimeContext) (p : V) (s : Bridge V) :
    (emitClockOffsetsChanged ctx p s).stopObservingClockOffsets
      = s.stopObservingClockOffsets := by
  unfold emitClockOffsetsChanged
  rw [iterate_updateClockOffsets]
  split <;> simp [updateClockOffsets]

theorem watchCallback_stop (api : TimeAPI V) (n : TimeContext) (o : Option TimeContext)
    (s : Bridge V) : (watchCallback api n o s).stopObservingClockOffsets = true := by
  simp [watchCallback, observeClockOffsets]

theorem setup_stop (api : TimeAPI V) (ctx0 : TimeContext) :
    (setup api ctx0).stopObservingClockOffsets = true := by
  simp [setup, useClockOffsets, watchCallback, observeClockOffsets]

theorem step_stop (api : TimeAPI V) (s : Bridge V) (e : Event V)
    (h : s.stopObservingClockOffsets = true) :
    (step api s e).stopObservingClockOffsets = true := by
  cases e with
  | setTimeContext ctx => simpa [step, setTimeContext] using h
  | flushWatch =>
    show (flushWatch api s).stopObservingClockOffsets = true
    unfold flushWatch
    split
    · simp [watchCallback, observeClockOffsets]
    · exact h
  | clockOffsetsChanged ctx p => simpa [step, emit_stop] using h
  | unmount =>
    simp [step, unmount, onBeforeUnmountHook, h, stopObservingClockOffsets, Bridge.off]

theorem run_stop (api : TimeAPI V) (events : List (Event V)) (s : Bridge V)
    (h : s.stopObservingClockOffsets = true) :
    (run api s events).stopObservingClockOffsets = true := by
  induction events generalizing s with
  | nil => simpa [run] using h
  | cons e es ih =>
    have := ih (step api s e) (step_stop api s e h)
    simpa [run] using this

theorem unmount_of_stop (s : Bridge V) (h : s.stopObservingClockOffsets = true) :
    unmount s = { s.off s.timeContext with active := false } := by
  simp [unmount, onBeforeUnmountHook, h, stopObservingClockOffsets]

end Lemmas

/-! ## Properties of `useClockOffsets` -/

section ClockOffsets

variable {V : Type}

/-- C4: the `offsets` cell that `useClockOffsets` hands back holds, right after the call
and before any event, exactly what `timeContext.value.getClockOffsets()` returned for the
Time Context in the reference cell at construction. -/
theorem useClockOffsets_initial_offsets (api : TimeAPI V) (ctx0 : TimeContext) :
    (useClockOffsets api ctx0).1.offsets = api.getClockOffsets ctx0 := by
  simp [useClockOffsets, watchCallback, observeClockOffsets, Bridge.on]

/-- C9: calling the listener `updateClockOffsets` with a payload `p` puts exactly `p`
in `offsets.value`, whatever was there and whatever `p` is, and leaves the rest of the
bridge as it was: the reference cell, the `stopObservingClockOffsets` slot, the
listener lists and the watcher. -/
theorem updateClockOffsets_overwrites (p : V) (s : Bridge V) :
    (updateClockOffsets p s).offsets = p
      ∧ (updateClockOffsets p s).timeContext = s.timeContext
      ∧ (updateClockOffsets p s).stopObservingClockOffsets = s.stopObservingClockOffsets
      ∧ (updateClockOffsets p s).listeners = s.listeners
      ∧ (updateClockOffsets p s).watched = s.watched
      ∧ (updateClockOffsets p s).active = s.active := by
  simp [updateClockOffsets]

/-- C1 (the code departs from it): with Time Context objects that have no `value`
property, after setup on `A`, a change of the cell to another context `B` and the watch
callback run with (new = `B`, old = `A`), the listener is still registered on `A`, so a
`clockOffsetsChanged` event on `A` with payload `p` does set `offsets.value` to `p`; the
event on `B` sets it too. -/
theorem old_context_still_updates_offsets (api : TimeAPI V) (A B : TimeContext) (p : V)
    (hvalue : api.value A = none) (hne : A ≠ B) :
    (emitClockOffsetsChanged A p (changeTimeContext api B (setup api A))).offsets = p
      ∧ (emitClockOffsetsChanged B p (changeTimeContext api B (setup api A))).offsets = p := by
  have hne2 : ¬ (B = A) := fun h => hne h.symm
  have hA : 0 < (changeTimeContext api B (setup api A)).listeners A := by
    simp [changeTimeContext, flushWatch, setTimeContext, setup, useClockOffsets, watchCallback,
      observeClockOffsets, Bridge.on, hvalue, hne, hne2]
  have hB : 0 < (changeTimeContext api B (setup api A)).listeners B := by
    simp [changeTimeContext, flushWatch, setTimeContext, setup, useClockOffsets, watchCallback,
      observeClockOffsets, Bridge.on, hvalue, hne, hne2]
  rw [emit_of_listener A p _ hA, emit_of_listener B p _ hB]
  simp [updateClockOffsets]

/-- Instance of C1's theorem: contexts 0 and 1 without a `value` property, initial
offsets 100, payload 7. -/
theorem old_context_still_updates_offsets_witness :
    (emitClockOffsetsChanged 0 7
        (changeTimeContext (TimeAPI.plain fun c => 100 + c) 1
          (setup (TimeAPI.plain fun c => 100 + c) 0))).offsets = 7
      ∧ (emitClockOffsetsChanged 1 7
        (changeTimeContext (TimeAPI.plain fun c => 100 + c) 1
          (setup (TimeAPI.plain fun c => 100 + c) 0))).offsets = 7 :=
  old_context_still_updates_offsets (TimeAPI.plain fun c => 100 + c) 0 1 7 rfl (by decide)

/-- C2 (the code departs from it): with Time Context objects that have no `value`
property, the state reached from setup on `A` by a change of the cell to another context
`B` followed by its watch callback has `updateClockOffsets` registered for
`clockOffsetsChanged` on both `A` and `B`, once each. -/
theorem two_contexts_subscribed_after_change (api : TimeAPI V) (A B : TimeContext)
    (hvalue : api.value A = none) (hne : A ≠ B) :
    (run api (setup api A) [Event.setTimeContext B, Event.flushWatch]).listeners A = 1
      ∧ (run api (setup api A) [Event.setTimeContext B, Event.flushWatch]).listeners B = 1 := by
  have hne2 : ¬ (B = A) := fun h => hne h.symm
  constructor <;>
    simp [run, step, flushWatch, setTimeContext, setup, useClockOffsets, watchCallback,
      observeClockOffsets, Bridge.on, hvalue, hne, hne2]

/-- Instance of C2's theorem: contexts 0 and 1 without a `value` property. -/
theorem two_contexts_subscribed_after_change_witness :
    (run (TimeAPI.plain fun c => 100 + c) (setup (TimeAPI.plain fun c => 100 + c) 0)
        [Event.setTimeContext 1, Event.flushWatch]).listeners 0 = 1
      ∧ (run (TimeAPI.plain fun c => 100 + c) (setup (TimeAPI.plain fun c => 100 + c) 0)
        [Event.setTimeContext 1, Event.flushWatch]).listeners 1 = 1 :=
  two_contexts_subscribed_after_change (TimeAPI.plain fun c => 100 + c) 0 1 rfl (by decide)

/-- C3: in any state reached from setup by cell changes, watcher runs, events and
unmounts, the teardown hook removes the listener from the Time Context that the cell
holds (the last-active one; once every pending watch callback has run it is the one
subscribed last), and a `clockOffsetsChanged` event fired on it afterwards, with any
payload, leaves `offsets.value` as it was. -/
theorem teardown_silences_last_active (api : TimeAPI V) (ctx0 : TimeContext)
    (events : List (Event V)) (p : V) :
    (unmount (run api (setup api ctx0) events)).listeners
        (run api (setup api ctx0) events).timeContext = 0
      ∧ (emitClockOffsetsChanged (run api (setup api ctx0) events).timeContext p
          (unmount (run api (setup api ctx0) events))).offsets
        = (run api (setup api ctx0) events).offsets := by
  have hstop := run_stop api events (setup api ctx0) (setup_stop api ctx0)
  have hzero : (unmount (run api (setup api ctx0) events)).listeners
      (run api (setup api ctx0) events).timeContext = 0 := by
    rw [unmount_of_stop _ hstop]
    simp [Bridge.off]
  refine ⟨hzero, ?_⟩
  rw [emit_of_no_listener _ p _ hzero, unmount_of_stop _ hstop]
  simp [Bridge.off]

/-- Instance of C3's theorem: setup on context 0, the cell changed to 1 and the watcher
run, an event on 1 with payload 5, then teardown and an event on 1 with payload 7. -/
theorem teardown_silences_last_active_witness :
    (unmount (run (TimeAPI.plain fun c => 100 + c) (setup (TimeAPI.plain fun c => 100 + c) 0)
        [Event.setTimeContext 1, Event.flushWatch, Event.clockOffsetsChanged 1 5])).listeners 1
        = 0
      ∧ (emitClockOffsetsChanged 1 7
          (unmount (run (TimeAPI.plain fun c => 100 + c)
            (setup (TimeAPI.plain fun c => 100 + c) 0)
            [Event.setTimeContext 1, Event.flushWatch,
              Event.clockOffsetsChanged 1 5]))).offsets = 5 :=
  teardown_silences_last_active (TimeAPI.plain fun c => 100 + c) 0
    [Event.setTimeContext 1, Event.flushWatch, Event.clockOffsetsChanged 1 5] 7

/-- C5 (the code departs from it): the object that `useClockOffsets` returns has the
single property `offsets`; the `observeClockOffsets` that the `@returns` of its
docstring declares is not among its properties. -/
theorem returned_object_lacks_observeClockOffsets (api : TimeAPI V) (ctx0 : TimeContext) :
    (useClockOffsets api ctx0).2 = [("offsets", Member.offsetsRef)]
      ∧ "observeClockOffsets" ∉ (useClockOffsets api ctx0).2.map Prod.fst
      ∧ "observeClockOffsets" ∈ declaredReturns := by
  refine ⟨rfl, ?_, ?_⟩
  · simp [useClockOffsets]
  · simp [declaredReturns]

/-- C10: the teardown closure reads the reference cell when it runs. In a state where
the listener is registered on `A`, the cell holds another context `B` (no watch callback
having run since) and the closure is assigned, teardown calls `off` on `B` and leaves the
listener list of `A` as it was, so that a later `clockOffsetsChanged` event on `A` with
payload `p` still sets `offsets.value` to `p`. -/
theorem teardown_reads_cell_when_called (s : Bridge V) (A B : TimeContext) (p : V)
    (hne : A ≠ B) (hcell : s.timeContext = B) (hstop : s.stopObservingClockOffsets = true)
    (hreg : 0 < s.listeners A) :
    (unmount s).listeners A = s.listeners A
      ∧ (unmount s).listeners B = 0
      ∧ (emitClockOffsetsChanged A p (unmount s)).offsets = p := by
  have hA : (unmount s).listeners A = s.listeners A := by
    rw [unmount_of_stop s hstop]
    simp [Bridge.off, hcell, hne]
  have hB : (unmount s).listeners B = 0 := by
    rw [unmount_of_stop s hstop]
    simp [Bridge.off, hcell]
  refine ⟨hA, hB, ?_⟩
  rw [emit_of_listener A p _ (by rw [hA]; exact hreg)]
  simp [updateClockOffsets]

/-- Instance of C10's theorem: setup on context 0, the cell set to 1 with the watcher not
yet run, teardown, then an event on 0 with payload 7. -/
theorem teardown_reads_cell_when_called_witness :
    (unmount (setTimeContext 1 (setup (TimeAPI.plain fun c => 100 + c) 0))).listeners 0
        = (setTimeContext 1 (setup (TimeAPI.plain fun c => 100 + c) 0)).listeners 0
      ∧ (unmount (setTimeContext 1 (setup (TimeAPI.plain fun c => 100 + c) 0))).listeners 1 = 0
      ∧ (emitClockOffsetsChanged 0 7
          (unmount (setTimeContext 1 (setup (TimeAPI.plain fun c => 100 + c) 0)))).offsets
        = 7 :=
  teardown_reads_cell_when_called (setTimeContext 1 (setup (TimeAPI.plain fun c => 100 + c) 0))
    0 1 7 (by decide) rfl rfl (by decide)

end ClockOffsets

/-! ## Properties of the mct-include directive -/

section Include

theorem find_key_of_mem (templates : List TemplateDescriptor) (d : TemplateDescriptor)
    (hnodup : (templates.map TemplateDescriptor.key).Nodup) (hmem : d ∈ templates) :
    templates.find? (fun t => t.key == d.key) = some d := by
  induction templates with
  | nil => cases hmem
  | cons t ts ih =>
    rw [List.map_cons, List.nodup_cons] at hnodup
    rcases List.mem_cons.mp hmem with h | h
    · subst h
      simp
    · have hkey : t.key ≠ d.key := by
        intro heq
        exact hnodup.1 (heq ▸ List.mem_map_of_mem TemplateDescriptor.key h)
      have hfalse : (t.key == d.key) = false := by simpa using hkey
      rw [List.find?_cons, hfalse]
      exact ih hnodup.2 h

theorem find_key_of_absent (templates : List TemplateDescriptor) (k : String)
    (habsent : ∀ d ∈ templates, d.key ≠ k) :
    templates.find? (fun t => t.key == k) = none := by
  rw [List.find?_eq_none]
  intro d hd
  simpa using habsent d hd

theorem fireWatch_link_ok (templates : List TemplateDescriptor) (linker : TemplateLinker)
    (scope element attrs : Nat) (changeTemplate : ChangeTemplate) (v : String)
    (hlink : linker scope element = .ok changeTemplate) :
    fireWatch (MCTInclude.link templates linker scope element attrs).watches "key" v
      = keyWatch templates changeTemplate v := by
  simp only [MCTInclude.link, hlink, fireWatch]
  cases h : (keyWatch templates changeTemplate v).raised <;> simp only [h] <;>
    (rw [← h]; simp)

theorem fireWatch_link_error (templates : List TemplateDescriptor) (linker : TemplateLinker)
    (scope element attrs : Nat) (e v : String) (hlink : linker scope element = .error e) :
    fireWatch (MCTInclude.link templates linker scope element attrs).watches "key" v
      = { calls := [], raised := none } := by
  simp only [MCTInclude.link, hlink, fireWatch]

/-- C6: for template descriptors with unique keys and a descriptor `d` among them, after
`link(scope, element, attrs)` with a linking function that hands back the callback
`changeTemplate`, firing the scope's `key` watch with `d.key` makes exactly one
`changeTemplate` call, with argument
`bundle.path + "/" + bundle.resources + "/" + templateUrl` of `d`. -/
theorem key_watch_changes_template (templates : List TemplateDescriptor)
    (linker : TemplateLinker) (scope element attrs : Nat) (changeTemplate : ChangeTemplate)
    (d : TemplateDescriptor)
    (hnodup : (templates.map TemplateDescriptor.key).Nodup) (hmem : d ∈ templates)
    (hlink : linker scope element = .ok changeTemplate) :
    (fireWatch (MCTInclude.link templates linker scope element attrs).watches "key"
        d.key).calls
      = [Call.changeTemplate changeTemplate.id
          (d.bundle.path ++ "/" ++ d.bundle.resources ++ "/" ++ d.templateUrl)] := by
  rw [fireWatch_link_ok templates linker scope element attrs changeTemplate d.key hlink]
  simp [keyWatch, find_key_of_mem templates d hnodup hmem, resolvedTemplateUrl]

/-- Instance of C6's theorem, test lines 79-84: with the fixture `testTemplates`, key
`"abc"` gives the one call `changeTemplate("a/b/c/template.html")`. -/
theorem key_watch_changes_template_witness :
    (fireWatch (MCTInclude.link testTemplates mockLinker 1 2 3).watches "key" "abc").calls
      = [Call.changeTemplate 0 "a/b/c/template.html"] :=
  key_watch_changes_template testTemplates mockLinker 1 2 3 { id := 0, raises := fun _ => none }
    { key := "abc", bundle := { path := "a", resources := "b" },
      templateUrl := "c/template.html" }
    (by decide) (by decide) rfl

/-- C7: when `k` is the key of no descriptor, firing the scope's `key` watch with `k`
after `link(scope, element, attrs)` makes no `changeTemplate` call (no call at all) and
no exception escapes, whatever the linking function and its callback do. -/
theorem key_watch_miss_is_silent (templates : List TemplateDescriptor)
    (linker : TemplateLinker) (scope element attrs : Nat) (k : String)
    (habsent : ∀ d ∈ templates, d.key ≠ k) :
    fireWatch (MCTInclude.link templates linker scope element attrs).watches "key" k
      = { calls := [], raised := none } := by
  cases hlink : linker scope element with
  | error e => exact fireWatch_link_error templates linker scope element attrs e k hlink
  | ok changeTemplate =>
    rw [fireWatch_link_ok templates linker scope element attrs changeTemplate k hlink]
    simp [keyWatch, find_key_of_absent templates k habsent]

/-- Instance of C7's theorem: the fixture `testTemplates`, a callback that throws on
every url, and the key `"nope"`. -/
theorem key_watch_miss_is_silent_witness :
    fireWatch (MCTInclude.link testTemplates
        (fun _ _ => .ok { id := 0, raises := fun _ => some "boom" }) 1 2 3).watches
        "key" "nope"
      = { calls := [], raised := none } :=
  key_watch_miss_is_silent testTemplates
    (fun _ _ => .ok { id := 0, raises := fun _ => some "boom" }) 1 2 3 "nope" (by decide)

/-- C8: one call of `link(scope, element, attrs)` calls the injected linking function
exactly once, with the very pair `(scope, element)`, and uses the callback it returns as
`changeTemplate`. In full: the record of calls holds one call of the linking function,
with `(scope, element)`; what `link` does depends on the linking function through its
result at `(scope, element)` alone; when that call throws, the exception leaves `link`
and no watch is registered; when it hands back a callback, `link` registers one watch,
on `key`, and firing it with the key of a descriptor `d` (keys unique) is exactly one
call of that very callback with the Resolved Template URL of `d`, an exception of the
callback included, while no fired value makes a call to anything else. -/
theorem link_calls_linker_once (templates : List TemplateDescriptor)
    (linker : TemplateLinker) (scope element attrs : Nat) :
    (MCTInclude.link templates linker scope element attrs).calls.filter
        Call.isTemplateLinkerLink = [Call.templateLinkerLink scope element]
      ∧ (∀ other : TemplateLinker, other scope element = linker scope element →
          MCTInclude.link templates other scope element attrs
            = MCTInclude.link templates linker scope element attrs)
      ∧ (∀ e : String, linker scope element = .error e →
          (MCTInclude.link templates linker scope element attrs).raised = some e
            ∧ (MCTInclude.link templates linker scope element attrs).calls
              = [Call.templateLinkerLink scope element]
            ∧ (MCTInclude.link templates linker scope element attrs).watches.map Prod.fst
              = [])
      ∧ ∀ changeTemplate : ChangeTemplate, linker scope element = .ok changeTemplate →
          (MCTInclude.link templates linker scope element attrs).raised = none
            ∧ (MCTInclude.link templates linker scope element attrs).calls
              = [Call.templateLinkerLink scope element, Call.scopeWatch scope "key"]
            ∧ (MCTInclude.link templates linker scope element attrs).watches.map Prod.fst
              = ["key"]
            ∧ (∀ d ∈ templates, (templates.map TemplateDescriptor.key).Nodup →
                fireWatch (MCTInclude.link templates linker scope element attrs).watches
                    "key" d.key
                  = { calls := [Call.changeTemplate changeTemplate.id
                        (d.bundle.path ++ "/" ++ d.bundle.resources ++ "/" ++ d.templateUrl)]
                      raised := changeTemplate.raises
                        (d.bundle.path ++ "/" ++ d.bundle.resources ++ "/"
                          ++ d.templateUrl) })
            ∧ ∀ (v : String) (c : Call),
                c ∈ (fireWatch (MCTInclude.link templates linker scope element attrs).watches
                      "key" v).calls →
                ∃ url, c = Call.changeTemplate changeTemplate.id url := by
  refine ⟨?_, ?_, ?_, ?_⟩
  · cases hlink : linker scope element <;>
      simp [MCTInclude.link, hlink, Call.isTemplateLinkerLink]
  · intro other hother
    simp only [MCTInclude.link, hother]
  · intro e hlink
    simp [MCTInclude.link, hlink]
  · intro changeTemplate hlink
    refine ⟨?_, ?_, ?_, ?_, ?_⟩
    · simp [MCTInclude.link, hlink]
    · simp [MCTInclude.link, hlink]
    · simp [MCTInclude.link, hlink]
    · intro d hmem hnodup
      rw [fireWatch_link_ok templates linker scope element attrs changeTemplate d.key hlink]
      simp [keyWatch, find_key_of_mem templates d hnodup hmem, resolvedTemplateUrl]
    · intro v c hc
      rw [fireWatch_link_ok templates linker scope element attrs changeTemplate v hlink] at hc
      unfold keyWatch at hc
      split at hc
      · exact ⟨_, by simpa using hc⟩
      · simp at hc

/-- Instance of C8's theorem, test lines 74-77 and 79-84: with the mocks of `beforeEach`,
scope 1 and element 2, the linker is called once with (1, 2), one watch is registered, on
`key`, and firing it with `"abc"` is the one call of `mockChangeTemplate` (callback 0)
with `"a/b/c/template.html"`; with a linking function that throws instead, the exception
leaves `link` and no watch is registered. -/
theorem link_calls_linker_once_witness :
    (MCTInclude.link testTemplates mockLinker 1 2 3).calls.filter Call.isTemplateLinkerLink
        = [Call.templateLinkerLink 1 2]
      ∧ (MCTInclude.link testTemplates mockLinker 1 2 3).watches.map Prod.fst = ["key"]
      ∧ fireWatch (MCTInclude.link testTemplates mockLinker 1 2 3).watches "key" "abc"
        = { calls := [Call.changeTemplate 0 "a/b/c/template.html"], raised := none }
      ∧ (MCTInclude.link testTemplates (fun _ _ => .error "boom") 1 2 3).raised
        = some "boom"
      ∧ (MCTInclude.link testTemplates (fun _ _ => .error "boom") 1 2 3).watches.map Prod.fst
        = [] :=
  ⟨(link_calls_linker_once testTemplates mockLinker 1 2 3).1,
    ((link_calls_linker_once testTemplates mockLinker 1 2 3).2.2.2
      { id := 0, raises := fun _ => none } rfl).2.2.1,
    ((link_calls_linker_once testTemplates mockLinker 1 2 3).2.2.2
      { id := 0, raises := fun _ => none } rfl).2.2.2.1
      { key := "abc", bundle := { path := "a", resources := "b" },
        templateUrl := "c/template.html" }
      (by decide) (by decide),
    ((link_calls_linker_once testTemplates (fun _ _ => .error "boom") 1 2 3).2.2.1
      "boom" rfl).1,
    ((link_calls_linker_once testTemplates (fun _ _ => .error "boom") 1 2 3).2.2.1
      "boom" rfl).2.2⟩

end Include

end OpenMCT
